import Mathlib

/-!
Verification development for the visual-elements orchestrator service.

This file gives a shallow embedding, in Lean 4, of the core algorithms of the
service: the grid-coordinate conversion and minimum-size validation
(`src/utils/grid_utils.py`), the chart-generation route with its validation
short-circuit and injection reporting (`src/routers/chart_router.py`), the
chart service client's submit/poll flow and metadata cache
(`src/services/chart_service.py`), the diagram service poller
(`src/services/diagram_service.py`), and the element reconciliation of the
layout service client (`src/services/layout_service.py`).

Modelling conventions:
* Python integers are modelled as `Int` (arbitrary precision, as in Python).
* Python's `round` is round-half-to-even; the two rounding sites divide by 2
  and by 14.  For division by 2 the float quotient is exact, so float `round`
  agrees with exact half-even rounding.  For `row_span * 8 / 14` a tie is
  impossible (8·s ≡ 7 (mod 14) has no solution) and the float quotient is far
  closer to the exact value than to any half-integer boundary, so
  nearest-integer rounding of the exact rational is the faithful model on
  every non-raising input; `roundHalfEvenRat` implements exact half-even
  rounding of a rational `num/den` (`den > 0`).  Divergences between float
  and exact rounding occur only at magnitudes where both clamp identically.
* CPython's `int / int` true division raises an `OverflowError` when the
  correctly rounded quotient exceeds the double range — an error path that
  `get_grid_dimensions` does not catch (it catches only `ValueError`), so a
  parseable span of roughly 309 digits escapes `convert_grid_position` as an
  uncaught exception.  `convert_grid_position` models the value computed on
  the non-raising path; `convert_grid_position_py` additionally models the
  raising behaviour (`none` = uncaught `OverflowError`), together with
  CPython's 4300-digit str-to-int conversion limit, whose `ValueError` is
  caught upstream exactly like a regex mismatch.
* Regular-expression digit/whitespace classes are modelled over their ASCII
  subsets (the service only ever receives ASCII CSS grid strings).
* Python dicts are modelled as association lists (`List (String × String)`):
  lookup returns the first binding, `dict.update` rewrites existing keys in
  place and appends new keys in order, exactly as CPython does for dicts with
  unique keys.  Heterogeneous dict values (strings, nested objects) are
  opaque to every algorithm modelled here, so they are collapsed to `String`.
* Awaited outbound calls (HTTP fetches, job submission, status polls,
  injection writes) are modelled as explicit oracle arguments: the value the
  awaited call would have produced.  A function whose result is independent
  of an oracle provably never depends on that call.
-/

/-! ## Exact half-even rounding (Python `round` on a rational `num/den`) -/

/-- Round `num / den` (with `den > 0`) to the nearest integer, ties to even:
the behaviour of Python's built-in `round` on the exact rational value. -/
def roundHalfEvenRat (num den : Int) : Int :=
  let q := num / den
  let r := num % den
  if 2 * r < den then q
  else if 2 * r = den then (if q % 2 = 0 then q else q + 1)
  else q + 1

/-! ## `grid_utils.parse_grid_value` -/

/-- ASCII model of Python `str.strip` / regex `\s` whitespace. -/
def isSpaceChar (c : Char) : Bool :=
  c == ' ' || c == '\t' || c == '\n' || c == '\r'

/-- Numeric value of an ASCII digit string (the effect of Python `int` on a
`\d+` match). -/
def digitsVal (ds : List Char) : Nat :=
  ds.foldl (fun acc c => 10 * acc + (c.toNat - '0'.toNat)) 0

/-- Python `value.strip()` on a list of characters. -/
def stripChars (cs : List Char) : List Char :=
  ((cs.dropWhile isSpaceChar).reverse.dropWhile isSpaceChar).reverse

/-- Model of `parse_grid_value`: match `(\d+)\s*/\s*(\d+)` at the start of the
stripped string and return the two integers; `none` models the `ValueError`
path.  Trailing characters after the match are ignored, as with `re.match`. -/
def parse_grid_value (value : String) : Option (Int × Int) :=
  let cs := stripChars value.toList
  let ds1 := cs.takeWhile Char.isDigit
  let r1 := cs.dropWhile Char.isDigit
  if ds1.isEmpty then none
  else
    match r1.dropWhile isSpaceChar with
    | '/' :: r3 =>
      let ds2 := (r3.dropWhile isSpaceChar).takeWhile Char.isDigit
      if ds2.isEmpty then none
      else some ((digitsVal ds1 : Int), (digitsVal ds2 : Int))
    | _ => none

/-! ## `grid_utils.get_grid_dimensions` and `convert_grid_position` -/

/-- CSS grid position from the layout service (`models.GridPosition`). -/
structure GridPosition where
  grid_row : String
  grid_column : String
deriving DecidableEq

/-- Result dictionary of `get_grid_dimensions`. -/
structure GridDimensions where
  row_start : Int
  row_stop : Int
  col_start : Int
  col_stop : Int
  row_span : Int
  col_span : Int
deriving DecidableEq

/-- Model of `get_grid_dimensions`: parse both axes; if either parse raises
`ValueError`, return the documented default dimensions. -/
def get_grid_dimensions (position : GridPosition) : GridDimensions :=
  match parse_grid_value position.grid_row, parse_grid_value position.grid_column with
  | some (rs, rt), some (cs, ct) => ⟨rs, rt, cs, ct, rt - rs, ct - cs⟩
  | _, _ => ⟨4, 12, 4, 20, 8, 16⟩

/-- Model of `convert_grid_position`: returns `(width, height)` in chart-AI
grid units — `round(col_span / 2)` and `round(row_span * 8 / 14)`, each
clamped into `[1, 12]` / `[1, 8]`. -/
def convert_grid_position (position : GridPosition) : Int × Int :=
  let dims := get_grid_dimensions position
  let grid_width := roundHalfEvenRat dims.col_span 2
  let grid_height := roundHalfEvenRat (dims.row_span * 8) 14
  (max 1 (min 12 grid_width), max 1 (min 8 grid_height))

/-! ## Raising behaviour of `convert_grid_position` (CPython semantics) -/

/-- CPython's default str-to-int conversion limit
(`sys.int_info.default_max_str_digits`): `int(s)` raises `ValueError` for
numerals longer than 4300 digits. -/
def pyMaxStrDigits : Nat := 4300

/-- Refinement of `parse_grid_value` for the raising-behaviour analysis:
CPython's `int()` additionally raises `ValueError` — caught by
`get_grid_dimensions` exactly like a regex mismatch — for numerals longer
than the 4300-digit default str-to-int conversion limit. -/
def parse_grid_value_py (value : String) : Option (Int × Int) :=
  let cs := stripChars value.toList
  let ds1 := cs.takeWhile Char.isDigit
  let r1 := cs.dropWhile Char.isDigit
  if ds1.isEmpty then none
  else
    match r1.dropWhile isSpaceChar with
    | '/' :: r3 =>
      let ds2 := (r3.dropWhile isSpaceChar).takeWhile Char.isDigit
      if ds2.isEmpty then none
      else if pyMaxStrDigits < ds1.length ∨ pyMaxStrDigits < ds2.length then
        none
      else some ((digitsVal ds1 : Int), (digitsVal ds2 : Int))
    | _ => none

/-- The spans actually fed into the conversion arithmetic: the parsed spans,
or the documented defaults (8, 16) when either parse raises `ValueError`. -/
def grid_spans_py (position : GridPosition) : Int × Int :=
  match parse_grid_value_py position.grid_row,
      parse_grid_value_py position.grid_column with
  | some (rs, rt), some (cs, ct) => (rt - rs, ct - cs)
  | _, _ => (8, 16)

/-- CPython `int / int` true division (`long_true_divide`) computes the
correctly rounded double and raises `OverflowError` exactly when that
rounded quotient falls outside the double range: `|num| / den ≥ 2^1024 −
2^970`, the round-half-even midpoint above the largest double `2^1024 −
2^971` (the tie rounds up, to the even significand).  Both call sites have
`den > 0`. -/
def pyTrueDivOverflows (num den : Int) : Bool :=
  decide (((2 ^ 1024 - 2 ^ 970 : Nat) : Int) * den ≤ |num|)

/-- Model of `convert_grid_position` including its raising behaviour:
`none` models the uncaught `OverflowError` escaping from
`round(col_span / 2)` (evaluated first) or from `round(row_span * 8 / 14)`;
otherwise the returned dimensions, computed as in
`convert_grid_position`. -/
def convert_grid_position_py (position : GridPosition) : Option (Int × Int) :=
  let spans := grid_spans_py position
  if pyTrueDivOverflows spans.2 2 then none
  else if pyTrueDivOverflows (spans.1 * 8) 14 then none
  else some (max 1 (min 12 (roundHalfEvenRat spans.2 2)),
    max 1 (min 8 (roundHalfEvenRat (spans.1 * 8) 14)))

/-! ## `grid_utils.validate_minimum_size` -/

/-- The `MINIMUM_SIZES` table: `(width, height)` minimum per chart type. -/
def MINIMUM_SIZES (chart_type : String) : Option (Int × Int) :=
  if chart_type = "bar" then some (3, 3)
  else if chart_type = "line" then some (3, 2)
  else if chart_type = "pie" then some (3, 3)
  else if chart_type = "doughnut" then some (3, 3)
  else if chart_type = "area" then some (3, 2)
  else if chart_type = "scatter" then some (4, 3)
  else if chart_type = "radar" then some (4, 4)
  else if chart_type = "polarArea" then some (3, 3)
  else none

/-- The two result-dictionary shapes of `validate_minimum_size`. -/
inductive ValidationResult where
  | invalid (current_width current_height min_width min_height : Int) (message : String)
  | valid (width height : Int)
deriving DecidableEq

/-- The `"valid"` entry of a `validate_minimum_size` result. -/
def vrValid : ValidationResult → Bool
  | .invalid _ _ _ _ _ => false
  | .valid _ _ => true

/-- Model of `validate_minimum_size`: compare converted dimensions against the
chart type's minimum, falling back to 3×3 for unknown types. -/
def validate_minimum_size (position : GridPosition) (chart_type : String) :
    ValidationResult :=
  let dims := convert_grid_position position
  let min_size := (MINIMUM_SIZES chart_type).getD (3, 3)
  if dims.1 < min_size.1 ∨ dims.2 < min_size.2 then
    .invalid dims.1 dims.2 min_size.1 min_size.2
      ("Grid size " ++ toString dims.1 ++ "x" ++ toString dims.2 ++
        " is too small for " ++ chart_type ++ " chart. Minimum size is " ++
        toString min_size.1 ++ "x" ++ toString min_size.2 ++ ".")
  else
    .valid dims.1 dims.2

/-! ## `diagram_service.DIAGRAM_MIN_SIZES` and `get_min_size` -/

/-- The `DIAGRAM_MIN_SIZES` table: `(width, height)` minimum per diagram type. -/
def DIAGRAM_MIN_SIZES (diagram_type : String) : Option (Int × Int) :=
  if diagram_type = "flowchart" then some (3, 2)
  else if diagram_type = "sequence" then some (4, 3)
  else if diagram_type = "class" then some (4, 3)
  else if diagram_type = "state" then some (3, 3)
  else if diagram_type = "er" then some (4, 3)
  else if diagram_type = "gantt" then some (6, 2)
  else if diagram_type = "userjourney" then some (4, 2)
  else if diagram_type = "gitgraph" then some (4, 2)
  else if diagram_type = "mindmap" then some (4, 4)
  else if diagram_type = "pie" then some (3, 3)
  else if diagram_type = "timeline" then some (5, 2)
  else none

/-- Model of `DiagramService.get_min_size`: table lookup with 3×3 fallback. -/
def get_min_size (diagram_type : String) : Int × Int :=
  (DIAGRAM_MIN_SIZES diagram_type).getD (3, 3)

/-- Spec-side conversion formula (for the refinement part of the rounding
claim): a linear per-axis scale `round(span × backendMax / authoringMax)`,
half-even rounding, clamped into `[1, backendMax]`, with authoring grid 24×14
and backend grid 12×8.  This definition follows the specification's words and
is compared against `convert_grid_position`, which is translated from the
source. -/
def specLinearScaleConvert (rowSpan colSpan : Int) : Int × Int :=
  (max 1 (min 12 (roundHalfEvenRat (colSpan * 12) 24)),
   max 1 (min 8 (roundHalfEvenRat (rowSpan * 8) 14)))

/-! ## Error taxonomy (`models.ErrorDetail`) -/

/-- The shared error shape `{code, message, retryable, suggestion?}`. -/
structure ErrorDetail where
  code : String
  message : String
  retryable : Bool
  suggestion : Option String
deriving DecidableEq

/-! ## `chart_router.generate_chart`

The two awaited calls (the chart-service generation and the layout-service
injection) are passed as oracle values: `svc` is what
`chart_service.generate(...)` would resolve to, `inj` what
`layout_service.inject_chart(...)` would resolve to. -/

/-- Normalized outcome of `chart_service.generate` as consumed by the router:
either a success dict whose `data.chartConfig` may be absent, or an error
dict.  Response fields not examined by the verified properties (raw data,
metadata, insights, generation id) are elided. -/
inductive SvcResult where
  | ok (chartConfig : Option String)
  | err (e : ErrorDetail)
deriving DecidableEq

/-- Outcome of `layout_service.inject_chart`: `{success, error?}`. -/
structure InjectionResult where
  success : Bool
  error : Option String
deriving DecidableEq

/-- The response model of the chart route (fields relevant to the verified
properties; metadata/insights/raw-data passthrough fields are elided). -/
structure ChartGenerateResponse where
  success : Bool
  element_id : String
  chart_config : Option String
  error : Option ErrorDetail
  injected : Option Bool
  injection_error : Option String
deriving DecidableEq

/-- Model of the `generate_chart` route handler: validate the grid size
(short-circuiting with a `GRID_TOO_SMALL` error before the backend call),
call the chart service, and on success inject the configuration into the
layout service, reporting the injection outcome separately from the
generation outcome. -/
def generate_chart (element_id : String) (position : GridPosition)
    (chart_type : String) (svc : SvcResult) (inj : InjectionResult) :
    ChartGenerateResponse :=
  match validate_minimum_size position chart_type with
  | .invalid _ _ mw mh msg =>
    { success := false, element_id := element_id, chart_config := none
      error := some
        { code := "GRID_TOO_SMALL", message := msg, retryable := true
          suggestion := some ("Resize the chart element to at least " ++
            toString mw ++ "x" ++ toString mh ++ " grid units.") }
      injected := none, injection_error := none }
  | .valid _ _ =>
    match svc with
    | .err e =>
      { success := false, element_id := element_id, chart_config := none
        error := some e, injected := none, injection_error := none }
    | .ok none =>
      { success := true, element_id := element_id, chart_config := none
        error := none, injected := none, injection_error := none }
    | .ok (some config) =>
      { success := true, element_id := element_id, chart_config := some config
        error := none, injected := some inj.success
        injection_error :=
          if inj.success then none
          else some (inj.error.getD "Unknown injection error") }

/-! ## `chart_service.ChartService.generate` (submission phase) -/

/-- Outcome of the awaited `POST /generate` submission call. -/
inductive SubmitOutcome where
  | response (jobId : Option String)
  | timeoutExc
  | connectErr
  | httpErr (status : Nat) (errObj : Option ErrorDetail)
  | otherExc (msg : String)
deriving DecidableEq

/-- Result of `ChartService.generate` / `_poll_job`: a success payload
(opaque here) or a normalized error. -/
inductive ChartSvcResult where
  | ok (payload : String)
  | fail (e : ErrorDetail)
deriving DecidableEq

/-- Model of `ChartService.generate` after the request body is built: submit
the job; if the response carries no (or a falsy) `job_id`, resolve at once
with a `NO_JOB_ID` error, otherwise delegate to the polling loop, whose
outcome is the oracle `pollOutcome`.  Exception paths are normalized exactly
as in the source. -/
def chart_service_generate (submit : SubmitOutcome)
    (pollOutcome : ChartSvcResult) : ChartSvcResult :=
  match submit with
  | .response jobId =>
    if jobId.getD "" = "" then
      .fail { code := "NO_JOB_ID"
              message := "Chart service did not return a job ID"
              retryable := true, suggestion := none }
    else pollOutcome
  | .timeoutExc =>
    .fail { code := "TIMEOUT"
            message := "Chart generation timed out. Please try again."
            retryable := true, suggestion := none }
  | .connectErr =>
    .fail { code := "CONNECTION_ERROR"
            message := "Unable to connect to Chart AI service. Please try again later."
            retryable := true, suggestion := none }
  | .httpErr status errObj =>
    .fail (errObj.getD
      { code := "HTTP_" ++ toString status
        message := "Chart service returned status " ++ toString status
        retryable := decide (500 ≤ status), suggestion := none })
  | .otherExc m =>
    .fail { code := "INTERNAL_ERROR", message := m
            retryable := false, suggestion := none }

/-! ## `chart_service.ChartService._poll_job`

The poll loop reads the event-loop clock at the top of each iteration and
compares the elapsed time against `self.poll_timeout` (60.0 s); each
non-terminal iteration then sleeps `poll_interval` (1.0 s).  The elapsed
time observed at iteration `k` is the abstract schedule `e k`; a real
schedule satisfies `e (k+1) ≥ e k + 1` (the sleep) and `0 ≤ e 0`.  The
status responses are the oracle stream `responses`. -/

/-- `ChartService.poll_timeout` (seconds, from `__init__`). -/
def chartPollTimeout : ℚ := 60

/-- Outcome of one awaited `GET /status/{job_id}` call. -/
inductive PollResponse where
  | status (s : String)
  | httpErr (status : Nat)
  | exc (msg : String)
deriving DecidableEq

/-- The `POLL_TIMEOUT` error produced on wall-clock budget exhaustion. -/
def chartPollTimeoutError : ErrorDetail :=
  { code := "POLL_TIMEOUT"
    message := "Chart generation timed out after 60.0s"
    retryable := true, suggestion := none }

/-- The `CHART_GENERATION_FAILED` error produced on an explicit `failed`
status (the backend-supplied message defaults to this text). -/
def chartFailedError : ErrorDetail :=
  { code := "CHART_GENERATION_FAILED"
    message := "Chart generation failed"
    retryable := true, suggestion := none }

/-- Model of the `while True` loop of `_poll_job`, with `fuel` an upper bound
on the number of remaining iterations (`none` = fuel exhausted, used only to
express the loop's termination).  Returns the number of status queries issued
together with the result.  At iteration `k`: first the elapsed-time check
(`e k > 60` returns `POLL_TIMEOUT` before any further query), then the status
query; `completed`/`failed` are terminal, any other status sleeps and
retries; poll transport errors are terminal and retryable. -/
def chartPollAux (responses : Nat → PollResponse) (e : Nat → ℚ) :
    Nat → Nat → Option (Nat × ChartSvcResult)
  | 0, _ => none
  | fuel + 1, k =>
    if chartPollTimeout < e k then some (k, .fail chartPollTimeoutError)
    else
      match responses k with
      | .status s =>
        if s = "completed" then some (k + 1, .ok ("completed at poll " ++ toString k))
        else if s = "failed" then some (k + 1, .fail chartFailedError)
        else chartPollAux responses e fuel (k + 1)
      | .httpErr st =>
        some (k + 1, .fail
          { code := "POLL_HTTP_" ++ toString st
            message := "Error polling chart status: " ++ toString st
            retryable := true, suggestion := none })
      | .exc m =>
        some (k + 1, .fail
          { code := "POLL_ERROR", message := m
            retryable := true, suggestion := none })

/-! ## `diagram_service.DiagramService.generate_with_polling` (polling loop)

`poll_status` maps transport errors to a `failed` status dict, so its outcome
is just a status string per attempt.  The loop runs `for attempt in
range(max_polls)` with a fixed 2.0 s sleep and no clock reads; after the loop
it returns `POLL_TIMEOUT`.  `DIAGRAM_POLL_TIMEOUT` (60.0 s, from `config`)
is stored on the service but never consulted by this loop. -/

/-- `settings.DIAGRAM_POLL_TIMEOUT` (seconds). -/
def DIAGRAM_POLL_TIMEOUT : ℚ := 60

/-- Result of the diagram polling flow: a success payload (opaque) or a
normalized error. -/
inductive DiagramResult where
  | ok (payload : String)
  | fail (e : ErrorDetail)
deriving DecidableEq

/-- The diagram `POLL_TIMEOUT` error; its message reports
`max_polls * poll_interval` seconds with the default 2.0 s interval. -/
def diagramTimeoutError (max_polls : Nat) : ErrorDetail :=
  { code := "POLL_TIMEOUT"
    message := "Diagram generation timed out after " ++
      toString (2 * max_polls) ++ ".0 seconds"
    retryable := true, suggestion := none }

/-- The diagram `GENERATION_FAILED` error (backend message defaults to
`"Unknown error"`). -/
def diagramFailedError (msg : String) : ErrorDetail :=
  { code := "GENERATION_FAILED", message := msg
    retryable := true, suggestion := none }

/-- Model of the diagram polling loop body: structural recursion on the
remaining attempts, returning the number of status queries issued together
with the result.  Unrecognized statuses are logged and treated as still
processing. -/
def diagramPollAux (statuses : Nat → String) (maxPolls : Nat) :
    Nat → Nat → Nat × DiagramResult
  | 0, k => (k, .fail (diagramTimeoutError maxPolls))
  | fuel + 1, k =>
    if statuses k = "completed" then
      (k + 1, .ok ("completed at poll " ++ toString k))
    else if statuses k = "failed" then
      (k + 1, .fail (diagramFailedError "Unknown error"))
    else diagramPollAux statuses maxPolls fuel (k + 1)

/-- Model of `generate_with_polling` after a successful submission that
returned a job id: poll up to `max_polls` times (default 30). -/
def diagram_generate_with_polling (statuses : Nat → String)
    (max_polls : Nat) : Nat × DiagramResult :=
  diagramPollAux statuses max_polls max_polls 0

/-! ## `chart_service.ChartService.get_constraints` / `clear_cache`

The cached constraints value is opaque to the caching discipline, so it is
modelled as a `String`.  The upstream fetch of call number `n` is the oracle
value `oracle n` (`some v` = successful fetch of `v`, `none` = any exception,
including connection failures). -/

/-- Adapter cache state: the `_constraints_cache` slot plus a count of
upstream fetches performed so far. -/
structure CacheState where
  cache : Option String
  fetches : Nat
deriving DecidableEq

/-- The built-in default constraints payload returned (uncached, tagged
`_fallback=True`) when the fetch fails. -/
def fallbackConstraints : String := "default-constraints-fallback"

/-- Model of one `get_constraints` call: return the cached value if present;
otherwise perform one upstream fetch, caching the result only on success and
returning the built-in fallback (without caching) on failure. -/
def get_constraints_step (oracle : Nat → Option String) (s : CacheState) :
    CacheState × String :=
  match s.cache with
  | some v => (s, v)
  | none =>
    match oracle s.fetches with
    | some v => (⟨some v, s.fetches + 1⟩, v)
    | none => (⟨none, s.fetches + 1⟩, fallbackConstraints)

/-- Model of `clear_cache`: reset the cached value. -/
def clear_cache (s : CacheState) : CacheState :=
  ⟨none, s.fetches⟩

/-- `n` consecutive `get_constraints` calls (final state). -/
def runGets (oracle : Nat → Option String) : Nat → CacheState → CacheState
  | 0, s => s
  | n + 1, s => runGets oracle n (get_constraints_step oracle s).1

/-! ## `layout_service.LayoutServiceClient.update_element` (reconciliation)

Slide elements are Python dicts; see the modelling conventions above.  The
`content` argument of `update_element` holds the kind-specific content
fields: as built by every `inject_*` wrapper, it never contains the reserved
`"id"` or `"position"` keys, and as a Python dict its keys are unique — the
theorems carry these facts as hypotheses. -/

/-- An element dictionary (or content dictionary): ordered key/value pairs. -/
abbrev ElementDict := List (String × String)

/-- First-binding lookup, the dict subscript/`get` of a Python dict. -/
def dlookup (k : String) : ElementDict → Option String
  | [] => none
  | kv :: rest => if kv.1 = k then some kv.2 else dlookup k rest

/-- Python `d.update(c)`: existing keys keep their position and take `c`'s
value; keys new to `d` are appended in `c`'s order. -/
def dictUpdate (d c : ElementDict) : ElementDict :=
  d.map (fun kv => (kv.1, (dlookup kv.1 c).getD kv.2)) ++
    c.filter (fun kv => (dlookup kv.1 d).isNone)

/-- The per-element effect of `update_element` on a matched element:
`element.update(content)` followed by `element["position"] = position` when
a (truthy) position is supplied. -/
def applyContent (e content : ElementDict) (position : Option String) :
    ElementDict :=
  match position with
  | some p => dictUpdate (dictUpdate e content) [("position", p)]
  | none => dictUpdate e content

/-- The element created on the not-found path:
`{"id": element_id, **content}` plus the optional position. -/
def newElement (element_id : String) (content : ElementDict)
    (position : Option String) : ElementDict :=
  applyContent [("id", element_id)] content position

/-- Model of the reconciliation core of `update_element`: scan the slide's
element array for the first entry whose `"id"` equals `element_id`, update it
in place and stop; append a new element when no entry matches. -/
def update_element (element_id : String) (content : ElementDict)
    (position : Option String) : List ElementDict → List ElementDict
  | [] => [newElement element_id content position]
  | e :: rest =>
    if dlookup "id" e = some element_id then
      applyContent e content position :: rest
    else e :: update_element element_id content position rest

/-- Number of elements in the array whose `"id"` equals `element_id`. -/
def countId (element_id : String) (arr : List ElementDict) : Nat :=
  (arr.filter (fun e => dlookup "id" e == some element_id)).length

/-! ## Theorems: coordinate conversion (claims C7, C8, C10) -/

/-- Half-even rounding is invariant under scaling numerator and denominator
by 12 (used to relate `round(colSpan / 2)` in the source to the spec formula
`round(colSpan × 12 / 24)`). -/
lemma roundHalfEvenRat_mul12_24 (s : Int) :
    roundHalfEvenRat (s * 12) 24 = roundHalfEvenRat s 2 := by
  simp only [roundHalfEvenRat]
  have h1 : s * 12 / 24 = s / 2 := by omega
  have h2 : s * 12 % 24 = 12 * (s % 2) := by omega
  have h3 : s % 2 = 0 ∨ s % 2 = 1 := by omega
  rw [h1, h2]
  rcases h3 with h | h <;> rw [h] <;> norm_num

/-- A chart type outside the eight-key `MINIMUM_SIZES` table has no entry. -/
lemma MINIMUM_SIZES_eq_none (ct : String)
    (h : ct ∉ (["bar", "line", "pie", "doughnut", "area", "scatter",
      "radar", "polarArea"] : List String)) :
    MINIMUM_SIZES ct = none := by
  simp only [List.mem_cons, List.not_mem_nil, or_false, not_or] at h
  obtain ⟨h1, h2, h3, h4, h5, h6, h7, h8⟩ := h
  simp [MINIMUM_SIZES, h1, h2, h3, h4, h5, h6, h7, h8]

/-- A diagram type outside the eleven-key `DIAGRAM_MIN_SIZES` table has no
entry. -/
lemma DIAGRAM_MIN_SIZES_eq_none (dt : String)
    (h : dt ∉ (["flowchart", "sequence", "class", "state", "er", "gantt",
      "userjourney", "gitgraph", "mindmap", "pie", "timeline"] : List String)) :
    DIAGRAM_MIN_SIZES dt = none := by
  simp only [List.mem_cons, List.not_mem_nil, or_false, not_or] at h
  obtain ⟨h1, h2, h3, h4, h5, h6, h7, h8, h9, h10, h11⟩ := h
  simp [DIAGRAM_MIN_SIZES, h1, h2, h3, h4, h5, h6, h7, h8, h9, h10, h11]

set_option exponentiation.threshold 2000 in
set_option maxRecDepth 20000 in
/-- C7 counterexample: the claim "`convert_grid_position` returns without
raising for every `GridPosition`" is false.  This column value is parseable —
its 310-digit numeral is below the 4300-digit `int()` limit, so
`parse_grid_value` returns `(1, 10^309)` — but the resulting span makes
`round(col_span / 2)` overflow CPython's float division, and the
`OverflowError` is not caught (only `ValueError` is): the conversion raises,
modelled by `convert_grid_position_py` returning `none`. -/
theorem convert_overflow_counterexample :
    parse_grid_value_py ("1/" ++ String.mk ('1' :: List.replicate 309 '0')) =
      some (1, ((10 ^ 309 : Nat) : Int)) ∧
    pyTrueDivOverflows (((10 ^ 309 : Nat) : Int) - 1) 2 = true ∧
    convert_grid_position_py
      ⟨"4/14", "1/" ++ String.mk ('1' :: List.replicate 309 '0')⟩ = none := by
  refine ⟨by decide, by decide, by decide⟩

/-- C7 (amended): for every `GridPosition` whose effective spans (the parsed
values, or the 8/16 defaults when either parse raises `ValueError`) stay
below CPython's float-division overflow threshold on both axes — which
includes every malformed position and every position whose parsed end does
not exceed its start — `convert_grid_position` returns without raising, with
width in `[1, 12]` and height in `[1, 8]`; when either axis reaches the
threshold, the conversion instead escapes with an uncaught
`OverflowError`. -/
theorem convert_grid_position_total_below_overflow (p : GridPosition) :
    (pyTrueDivOverflows (grid_spans_py p).2 2 = false →
      pyTrueDivOverflows ((grid_spans_py p).1 * 8) 14 = false →
      ∃ w h, convert_grid_position_py p = some (w, h) ∧
        1 ≤ w ∧ w ≤ 12 ∧ 1 ≤ h ∧ h ≤ 8) ∧
    ((pyTrueDivOverflows (grid_spans_py p).2 2 = true ∨
      pyTrueDivOverflows ((grid_spans_py p).1 * 8) 14 = true) →
      convert_grid_position_py p = none) := by
  constructor
  · intro hw hh
    refine ⟨max 1 (min 12 (roundHalfEvenRat (grid_spans_py p).2 2)),
      max 1 (min 8 (roundHalfEvenRat ((grid_spans_py p).1 * 8) 14)),
      ?_, le_max_left _ _, max_le (by norm_num) (min_le_left _ _),
      le_max_left _ _, max_le (by norm_num) (min_le_left _ _)⟩
    simp only [convert_grid_position_py, hw, hh]
    simp
  · intro h
    simp only [convert_grid_position_py]
    rcases h with h | h
    · simp [h]
    · by_cases hw2 : pyTrueDivOverflows (grid_spans_py p).2 2 = true
      · simp [hw2]
      · simp [hw2, h]

set_option exponentiation.threshold 2000 in
set_option maxRecDepth 20000 in
theorem convert_grid_position_total_below_overflow_witness :
    ∃ w h, convert_grid_position_py ⟨"4/14", "8/24"⟩ = some (w, h) ∧
      1 ≤ w ∧ w ≤ 12 ∧ 1 ≤ h ∧ h ≤ 8 :=
  (convert_grid_position_total_below_overflow ⟨"4/14", "8/24"⟩).1
    (by decide) (by decide)

/-- C8: the position with `grid_row = "4/14"` (span 10) and
`grid_column = "8/24"` (span 16) converts to width 8 and height 6, and for
every parseable position the output is determined by the spec's rounding
rule: a linear per-axis scale (span × backendMax / authoringMax), half-even
rounding, then clamping (`specLinearScaleConvert`). -/
theorem convert_grid_position_rounding :
    convert_grid_position ⟨"4/14", "8/24"⟩ = (8, 6) ∧
    ∀ (p : GridPosition) (r1 r2 c1 c2 : Int),
      parse_grid_value p.grid_row = some (r1, r2) →
      parse_grid_value p.grid_column = some (c1, c2) →
      convert_grid_position p = specLinearScaleConvert (r2 - r1) (c2 - c1) := by
  refine ⟨by decide, ?_⟩
  intro p r1 r2 c1 c2 hr hc
  simp only [convert_grid_position, get_grid_dimensions, specLinearScaleConvert,
    hr, hc]
  rw [roundHalfEvenRat_mul12_24]

theorem convert_grid_position_rounding_witness :
    convert_grid_position ⟨"4/14", "8/24"⟩ =
      specLinearScaleConvert (14 - 4) (24 - 8) :=
  convert_grid_position_rounding.2 ⟨"4/14", "8/24"⟩ 4 14 8 24
    (by decide) (by decide)

/-- C10: a chart type that is not one of the eight `MINIMUM_SIZES` keys is
validated against the built-in 3×3 default — `validate_minimum_size` accepts
exactly when both converted dimensions are at least 3 — and the diagram
lookup `get_min_size` likewise falls back to 3×3 for unlisted diagram
types. -/
theorem unknown_type_minimum_default (p : GridPosition) (ct dt : String)
    (hct : ct ∉ (["bar", "line", "pie", "doughnut", "area", "scatter",
      "radar", "polarArea"] : List String))
    (hdt : dt ∉ (["flowchart", "sequence", "class", "state", "er", "gantt",
      "userjourney", "gitgraph", "mindmap", "pie", "timeline"] : List String)) :
    (vrValid (validate_minimum_size p ct) = true ↔
      3 ≤ (convert_grid_position p).1 ∧ 3 ≤ (convert_grid_position p).2) ∧
    get_min_size dt = (3, 3) := by
  constructor
  · simp only [validate_minimum_size, MINIMUM_SIZES_eq_none ct hct,
      Option.getD_none]
    split
    · next h => simp only [vrValid]; constructor <;> intro hx <;> [exact absurd hx (by simp); omega]
    · next h => simp only [vrValid, true_iff]; omega
  · simp [get_min_size, DIAGRAM_MIN_SIZES_eq_none dt hdt]

theorem unknown_type_minimum_default_witness :
    (vrValid (validate_minimum_size ⟨"4/14", "8/24"⟩ "treemap") = true ↔
      3 ≤ (convert_grid_position ⟨"4/14", "8/24"⟩).1 ∧
      3 ≤ (convert_grid_position ⟨"4/14", "8/24"⟩).2) ∧
    get_min_size "network" = (3, 3) :=
  unknown_type_minimum_default ⟨"4/14", "8/24"⟩ "treemap" "network"
    (by decide) (by decide)

/-! ## Theorems: the chart route (claims C2, C4) -/

/-- C2 counterexample: at the concrete request with position `1/2`,`1/2`
(converted dimensions 1×1, below the 3×3 minimum for `bar`), the validation
failure response carries `retryable = true`, not `retryable = false` as the
claim states. -/
theorem validation_error_retryable_counterexample :
    (convert_grid_position ⟨"1/2", "1/2"⟩).1 <
      ((MINIMUM_SIZES "bar").getD (3, 3)).1 ∧
    (generate_chart "el-1" ⟨"1/2", "1/2"⟩ "bar" (.ok none)
        ⟨true, none⟩).error.map ErrorDetail.retryable = some true ∧
    ¬ (generate_chart "el-1" ⟨"1/2", "1/2"⟩ "bar" (.ok none)
        ⟨true, none⟩).error.map ErrorDetail.retryable = some false := by
  decide

/-- C2 (amended): every size validation failure short-circuits before any
outbound call — the response is independent of both the generation-call and
injection-call outcomes — and the returned `ErrorDetail` has code
`GRID_TOO_SMALL`, `retryable = true` (not `false` as the spec claims), and a
resize suggestion. -/
theorem validation_failure_short_circuits (element_id : String)
    (pos : GridPosition) (ct : String) (svc svc2 : SvcResult)
    (inj inj2 : InjectionResult)
    (h : (convert_grid_position pos).1 < ((MINIMUM_SIZES ct).getD (3, 3)).1 ∨
      (convert_grid_position pos).2 < ((MINIMUM_SIZES ct).getD (3, 3)).2) :
    (generate_chart element_id pos ct svc inj).success = false ∧
    (∃ e, (generate_chart element_id pos ct svc inj).error = some e ∧
      e.code = "GRID_TOO_SMALL" ∧ e.retryable = true ∧
      e.suggestion.isSome = true) ∧
    generate_chart element_id pos ct svc inj =
      generate_chart element_id pos ct svc2 inj2 := by
  simp only [generate_chart, validate_minimum_size]
  rw [if_pos h]
  exact ⟨rfl, ⟨_, rfl, rfl, rfl, rfl⟩, rfl⟩

theorem validation_failure_short_circuits_witness :
    (generate_chart "el-1" ⟨"1/2", "1/2"⟩ "bar" (.ok (some "cfg"))
      ⟨true, none⟩).success = false ∧
    (∃ e, (generate_chart "el-1" ⟨"1/2", "1/2"⟩ "bar" (.ok (some "cfg"))
        ⟨true, none⟩).error = some e ∧
      e.code = "GRID_TOO_SMALL" ∧ e.retryable = true ∧
      e.suggestion.isSome = true) ∧
    generate_chart "el-1" ⟨"1/2", "1/2"⟩ "bar" (.ok (some "cfg")) ⟨true, none⟩ =
      generate_chart "el-1" ⟨"1/2", "1/2"⟩ "bar" (.err
        { code := "TIMEOUT", message := "t", retryable := true,
          suggestion := none }) ⟨false, some "boom"⟩ :=
  validation_failure_short_circuits "el-1" ⟨"1/2", "1/2"⟩ "bar" _ _ _ _
    (by decide)

/-- C4: when validation passes, the backend generation succeeds with a chart
configuration, and the injection write fails, the unified response still
reports `success = true` with `injected = some false` and the injection error
message carried in `injection_error`; the generation error field stays empty
and the generated configuration is still returned. -/
theorem injection_failure_reported_not_promoted (element_id : String)
    (pos : GridPosition) (ct : String) (config msg : String)
    (hv : vrValid (validate_minimum_size pos ct) = true) :
    (generate_chart element_id pos ct (.ok (some config))
      ⟨false, some msg⟩).success = true ∧
    (generate_chart element_id pos ct (.ok (some config))
      ⟨false, some msg⟩).injected = some false ∧
    (generate_chart element_id pos ct (.ok (some config))
      ⟨false, some msg⟩).injection_error = some msg ∧
    (generate_chart element_id pos ct (.ok (some config))
      ⟨false, some msg⟩).error = none ∧
    (generate_chart element_id pos ct (.ok (some config))
      ⟨false, some msg⟩).chart_config = some config := by
  cases hval : validate_minimum_size pos ct with
  | invalid cw ch mw mh m => rw [hval] at hv; simp [vrValid] at hv
  | valid w h => simp [generate_chart, hval, Option.getD]

theorem injection_failure_reported_not_promoted_witness :
    (generate_chart "el-1" ⟨"4/14", "8/24"⟩ "bar" (.ok (some "cfg"))
      ⟨false, some "store unreachable"⟩).success = true ∧
    (generate_chart "el-1" ⟨"4/14", "8/24"⟩ "bar" (.ok (some "cfg"))
      ⟨false, some "store unreachable"⟩).injected = some false ∧
    (generate_chart "el-1" ⟨"4/14", "8/24"⟩ "bar" (.ok (some "cfg"))
      ⟨false, some "store unreachable"⟩).injection_error =
        some "store unreachable" ∧
    (generate_chart "el-1" ⟨"4/14", "8/24"⟩ "bar" (.ok (some "cfg"))
      ⟨false, some "store unreachable"⟩).error = none ∧
    (generate_chart "el-1" ⟨"4/14", "8/24"⟩ "bar" (.ok (some "cfg"))
      ⟨false, some "store unreachable"⟩).chart_config = some "cfg" :=
  injection_failure_reported_not_promoted "el-1" ⟨"4/14", "8/24"⟩ "bar"
    "cfg" "store unreachable" (by decide)

/-! ## Theorems: chart service submission (claim C3) -/

/-- C3 counterexample: when the submission response carries no job id, the
resulting `NO_JOB_ID` failure has `retryable = true` — not `retryable =
false` as the claim states (shown at a concrete polling oracle; the first
conjunct pins the whole output down). -/
theorem no_job_id_retryable_counterexample :
    chart_service_generate (.response none) (.ok "polled") =
      .fail { code := "NO_JOB_ID"
              message := "Chart service did not return a job ID"
              retryable := true, suggestion := none } ∧
    ¬ chart_service_generate (.response none) (.ok "polled") =
      .fail { code := "NO_JOB_ID"
              message := "Chart service did not return a job ID"
              retryable := false, suggestion := none } := by
  decide

/-- C3 (amended): when the submission call succeeds but the response carries
no job id, `generate` resolves immediately — its result is independent of the
polling oracle, so no polling occurs — with a Failure whose error is
`NO_JOB_ID` and `retryable = true` (not `false` as the spec claims). -/
theorem no_job_id_resolves_immediately (poll poll2 : ChartSvcResult) :
    chart_service_generate (.response none) poll =
      .fail { code := "NO_JOB_ID"
              message := "Chart service did not return a job ID"
              retryable := true, suggestion := none } ∧
    chart_service_generate (.response none) poll =
      chart_service_generate (.response none) poll2 := by
  constructor <;> simp [chart_service_generate]

/-! ## Theorems: the polling loops (claim C5) -/

/-- When every status is non-terminal, the diagram loop consumes all its
attempts and returns the `POLL_TIMEOUT` failure. -/
lemma diagramPollAux_nonterminal (statuses : Nat → String) (m : Nat)
    (h : ∀ k, statuses k ≠ "completed" ∧ statuses k ≠ "failed") :
    ∀ fuel k, diagramPollAux statuses m fuel k =
      (k + fuel, .fail (diagramTimeoutError m)) := by
  intro fuel
  induction fuel with
  | zero => intro k; simp [diagramPollAux]
  | succ n ih =>
    intro k
    rw [diagramPollAux, if_neg (h k).1, if_neg (h k).2, ih (k + 1)]
    have : k + 1 + n = k + (n + 1) := by omega
    rw [this]

/-- When every status response is non-terminal and `K` is the first
iteration whose elapsed time exceeds the wall-clock budget, the chart loop
polls exactly `K` times and returns the `POLL_TIMEOUT` failure. -/
lemma chartPollAux_timeout (responses : Nat → PollResponse) (e : Nat → ℚ)
    (hnt : ∀ k, ∃ s, responses k = PollResponse.status s ∧
      s ≠ "completed" ∧ s ≠ "failed")
    (K : Nat) (hK : chartPollTimeout < e K)
    (hleast : ∀ j, j < K → ¬ chartPollTimeout < e j) :
    ∀ fuel k, k + fuel = K + 1 → k ≤ K →
      chartPollAux responses e fuel k =
        some (K, .fail chartPollTimeoutError) := by
  intro fuel
  induction fuel with
  | zero => intro k hk hle; exact absurd hle (by omega)
  | succ n ih =>
    intro k hk hle
    rw [chartPollAux]
    by_cases ht : chartPollTimeout < e k
    · have hkK : k = K := by
        rcases lt_or_eq_of_le hle with hlt | heq
        · exact absurd ht (hleast k hlt)
        · exact heq
      rw [if_pos ht, hkK]
    · have hkK : k < K := by
        rcases lt_or_eq_of_le hle with hlt | heq
        · exact hlt
        · exact absurd (by rw [heq]; exact hK) ht
      rw [if_neg ht]
      obtain ⟨s, hs, hs1, hs2⟩ := hnt k
      rw [hs]
      simp only [if_neg hs1, if_neg hs2]
      exact ih (k + 1) (by omega) (by omega)

/-- Under the real schedule constraints (non-negative start, each iteration
sleeps at least the 1 s interval) the elapsed time at iteration `j` is at
least `j` seconds. -/
lemma poll_schedule_growth (e : Nat → ℚ) (h0 : 0 ≤ e 0)
    (hstep : ∀ j, e j + 1 ≤ e (j + 1)) : ∀ j : Nat, (j : ℚ) ≤ e j := by
  intro j
  induction j with
  | zero => simpa using h0
  | succ n ih =>
    have h := hstep n
    push_cast
    linarith

/-- C5 (amended): each polling loop terminates within a single bounded
budget, not the claimed pair.  The chart poller enforces only the 60 s
wall-clock budget: against a backend that never reports a terminal status it
returns the retryable `POLL_TIMEOUT` failure after exactly `K` status
queries, where `K` is the first iteration whose elapsed time exceeds the
budget (never earlier, never later), and under the 1 s-sleep schedule `K`
is at most 61.  The diagram poller enforces only the attempt budget: it
returns its retryable `POLL_TIMEOUT` failure after exactly `max_polls`
status queries.  In both loops the timeout code is distinct from the code
used when the backend explicitly reports failure. -/
theorem poll_loop_budget (responses : Nat → PollResponse) (e : Nat → ℚ)
    (hnt : ∀ k, ∃ s, responses k = PollResponse.status s ∧
      s ≠ "completed" ∧ s ≠ "failed")
    (K : Nat) (hK : chartPollTimeout < e K)
    (hleast : ∀ j, j < K → ¬ chartPollTimeout < e j)
    (dstatuses : Nat → String)
    (hdnt : ∀ k, dstatuses k ≠ "completed" ∧ dstatuses k ≠ "failed")
    (n : Nat) :
    chartPollAux responses e (K + 1) 0 =
      some (K, .fail chartPollTimeoutError) ∧
    diagram_generate_with_polling dstatuses n =
      (n, .fail (diagramTimeoutError n)) ∧
    chartPollTimeoutError.retryable = true ∧
    (diagramTimeoutError n).retryable = true ∧
    chartPollTimeoutError.code ≠ chartFailedError.code ∧
    (diagramTimeoutError n).code ≠ (diagramFailedError "Unknown error").code ∧
    (0 ≤ e 0 → (∀ j, e j + 1 ≤ e (j + 1)) → K ≤ 61) := by
  refine ⟨chartPollAux_timeout responses e hnt K hK hleast (K + 1) 0
      (by omega) (by omega), ?_, rfl, rfl,
      by simp only [chartPollTimeoutError, chartFailedError]; decide,
      by simp only [diagramTimeoutError, diagramFailedError]; decide, ?_⟩
  · rw [diagram_generate_with_polling,
      diagramPollAux_nonterminal dstatuses n hdnt n 0]
    rw [Nat.zero_add]
  · intro h0 hstep
    by_contra hgt
    push_neg at hgt
    have h61 : ¬ chartPollTimeout < e 61 := hleast 61 (by omega)
    have hg : (61 : ℚ) ≤ e 61 := poll_schedule_growth e h0 hstep 61
    apply h61
    rw [chartPollTimeout]
    have : (60 : ℚ) < 61 := by norm_num
    linarith

theorem poll_loop_budget_witness :
    chartPollAux (fun _ => PollResponse.status "processing")
        (fun k => (k : ℚ)) 62 0 =
      some (61, .fail chartPollTimeoutError) ∧
    diagram_generate_with_polling (fun _ => "processing") 30 =
      (30, .fail (diagramTimeoutError 30)) ∧
    chartPollTimeoutError.retryable = true ∧
    (diagramTimeoutError 30).retryable = true ∧
    chartPollTimeoutError.code ≠ chartFailedError.code ∧
    (diagramTimeoutError 30).code ≠ (diagramFailedError "Unknown error").code ∧
    (61 : Nat) ≤ 61 := by
  have h := poll_loop_budget (fun _ => PollResponse.status "processing")
    (fun k => (k : ℚ))
    (fun k => ⟨"processing", rfl, by decide, by decide⟩)
    61 (by rw [chartPollTimeout]; norm_num)
    (fun j hj => by
      rw [chartPollTimeout, not_lt]
      show (j : ℚ) ≤ 60
      exact_mod_cast Nat.le_of_lt_succ hj)
    (fun _ => "processing")
    (fun k => ⟨by show "processing" ≠ "completed"; decide,
      by show "processing" ≠ "failed"; decide⟩) 30
  exact ⟨h.1, h.2.1, h.2.2.1, h.2.2.2.1, h.2.2.2.2.1, h.2.2.2.2.2.1,
    h.2.2.2.2.2.2 (by norm_num)
      (fun j => by
        show (j : ℚ) + 1 ≤ ((j + 1 : Nat) : ℚ)
        push_cast
        linarith)⟩

/-- C5 counterexample: the diagram poller enforces no wall-clock budget at
all.  Against a backend stuck in `processing` it issues all 30 status
queries; in a run where each poll takes 10 s the configured 60 s wall-clock
budget (`DIAGRAM_POLL_TIMEOUT`) is exhausted first, already after 6 polls,
yet the loop does not stop there — contradicting "bounded by both a maximum
attempt count and a wall-clock budget, whichever is reached first" and
"exactly when that budget is exhausted (not earlier or later)". -/
theorem poll_budget_counterexample :
    (diagram_generate_with_polling (fun _ => "processing") 30).1 = 30 ∧
    DIAGRAM_POLL_TIMEOUT ≤ (6 : ℚ) * 10 ∧ (6 : Nat) < 30 := by
  refine ⟨?_, by rw [DIAGRAM_POLL_TIMEOUT]; norm_num, by norm_num⟩
  decide

/-! ## Theorems: the metadata cache (claim C6) -/

/-- A `get_constraints` call with a populated cache is a pure cache hit. -/
lemma get_constraints_step_hit (oracle : Nat → Option String)
    (s : CacheState) (v : String) (h : s.cache = some v) :
    get_constraints_step oracle s = (s, v) := by
  cases s with
  | mk c f =>
    simp only at h
    subst h
    rfl

/-- Repeated `get_constraints` calls with a populated cache never change the
state. -/
lemma runGets_hit (oracle : Nat → Option String) (v : String) :
    ∀ (n : Nat) (s : CacheState), s.cache = some v → runGets oracle n s = s := by
  intro n
  induction n with
  | zero => intro s _; rfl
  | succ m ih =>
    intro s h
    rw [runGets, get_constraints_step_hit oracle s v h]
    exact ih s h

/-- C6 (amended): for each metadata catalog, the first `getMetadata` call
after construction or after `clearCache` performs exactly one upstream
fetch; when that fetch succeeds its value is cached, and every subsequent
call before the next clear performs zero fetches and returns the cached
value; clearing forces the next call to fetch again.  (When the fetch fails
the built-in fallback is returned without being cached, so the next call
fetches again — see the counterexample.) -/
theorem metadata_cache_discipline (oracle : Nat → Option String)
    (f0 n : Nat) (v : String) (hfetch : oracle f0 = some v) :
    get_constraints_step oracle ⟨none, f0⟩ = (⟨some v, f0 + 1⟩, v) ∧
    runGets oracle (n + 1) ⟨none, f0⟩ = ⟨some v, f0 + 1⟩ ∧
    (∀ s : CacheState, s.cache = some v →
      get_constraints_step oracle s = (s, v)) ∧
    (get_constraints_step oracle (clear_cache ⟨some v, f0 + 1⟩)).1.fetches =
      f0 + 2 := by
  have hfirst : get_constraints_step oracle ⟨none, f0⟩ = (⟨some v, f0 + 1⟩, v) := by
    rw [get_constraints_step]
    simp only
    rw [hfetch]
  refine ⟨hfirst, ?_, fun s hs => get_constraints_step_hit oracle s v hs, ?_⟩
  · rw [runGets, hfirst]
    exact runGets_hit oracle v n _ rfl
  · rw [clear_cache, get_constraints_step]
    cases oracle (f0 + 1) <;> rfl

theorem metadata_cache_discipline_witness :
    get_constraints_step (fun _ => some "catalog") ⟨none, 0⟩ =
      (⟨some "catalog", 1⟩, "catalog") ∧
    runGets (fun _ => some "catalog") 4 ⟨none, 0⟩ = ⟨some "catalog", 1⟩ ∧
    get_constraints_step (fun _ => some "catalog") ⟨some "catalog", 7⟩ =
      (⟨some "catalog", 7⟩, "catalog") ∧
    (get_constraints_step (fun _ => some "catalog")
      (clear_cache ⟨some "catalog", 1⟩)).1.fetches = 2 := by
  have h := metadata_cache_discipline (fun _ => some "catalog") 0 3 "catalog" rfl
  exact ⟨h.1, h.2.1, h.2.2.1 ⟨some "catalog", 7⟩ rfl, h.2.2.2⟩

/-- C6 counterexample: when the upstream fetch fails, the fallback is
returned without being cached, so the second `get_constraints` call performs
a second upstream fetch — two fetches after two calls, where the claim
requires exactly one fetch on the first call and zero on every subsequent
call. -/
theorem metadata_cache_counterexample :
    (runGets (fun _ => none) 2 ⟨none, 0⟩).fetches = 2 ∧
    ¬ (runGets (fun _ => none) 2 ⟨none, 0⟩).fetches = 1 := by
  decide

/-! ## Theorems: reconciliation (claims C1, C9)

Dictionary lemmas about `dlookup`/`dictUpdate`, then the idempotence and
frame theorems for `update_element`. -/

/-- Lookup distributes over append: the left list wins. -/
lemma dlookup_append (k : String) (xs ys : ElementDict) :
    dlookup k (xs ++ ys) =
      match dlookup k xs with
      | some v => some v
      | none => dlookup k ys := by
  induction xs with
  | nil => rfl
  | cons kv rest ih =>
    rw [List.cons_append, dlookup, dlookup]
    by_cases hk : kv.1 = k
    · rw [if_pos hk, if_pos hk]
    · rw [if_neg hk, if_neg hk, ih]

/-- Lookup in the value-rewriting map half of `dictUpdate`. -/
lemma dlookup_dictUpdate_map (k : String) (d c : ElementDict) :
    dlookup k (d.map (fun kv => (kv.1, (dlookup kv.1 c).getD kv.2))) =
      Option.map (fun v => (dlookup k c).getD v) (dlookup k d) := by
  induction d with
  | nil => rfl
  | cons kv rest ih =>
    rw [List.map_cons, dlookup, dlookup]
    by_cases hk : kv.1 = k
    · rw [if_pos hk, if_pos hk, hk]
      rfl
    · rw [if_neg hk, if_neg hk, ih]

/-- Lookup in the new-keys filter half of `dictUpdate`. -/
lemma dlookup_dictUpdate_filter (k : String) (d c : ElementDict) :
    dlookup k (c.filter (fun kv => (dlookup kv.1 d).isNone)) =
      if (dlookup k d).isNone = true then dlookup k c else none := by
  induction c with
  | nil =>
    cases (dlookup k d).isNone <;> simp [dlookup]
  | cons kv rest ih =>
    by_cases hp : (dlookup kv.1 d).isNone = true
    · rw [List.filter_cons_of_pos (by simpa using hp), dlookup, dlookup]
      by_cases hk : kv.1 = k
      · rw [if_pos hk, ← hk, if_pos hp, if_pos rfl]
      · rw [if_neg hk, if_neg hk, ih]
    · rw [List.filter_cons_of_neg (by simpa using hp), dlookup, ih]
      by_cases hk : kv.1 = k
      · rw [if_pos hk, ← hk, if_neg hp, if_neg (by rw [← hk] at *; exact hp)]
      · rw [if_neg hk]

/-- The fundamental lookup law of `dictUpdate`: the updating dict wins,
otherwise the original binding survives — the lookup behaviour of Python's
`d.update(c)`. -/
lemma dlookup_dictUpdate (k : String) (d c : ElementDict) :
    dlookup k (dictUpdate d c) =
      match dlookup k c with
      | some v => some v
      | none => dlookup k d := by
  rw [dictUpdate, dlookup_append, dlookup_dictUpdate_map,
    dlookup_dictUpdate_filter]
  cases hd : dlookup k d <;> cases hc2 : dlookup k c <;> simp

/-- A pair present in a dict has a successful lookup on its key. -/
lemma dlookup_isSome_of_mem (c : ElementDict) (kv : String × String)
    (h : kv ∈ c) : (dlookup kv.1 c).isSome = true := by
  induction c with
  | nil => simp at h
  | cons kv0 rest ih =>
    rcases List.mem_cons.mp h with heq | hmem
    · subst heq; simp [dlookup]
    · by_cases hk : kv0.1 = kv.1
      · simp [dlookup, hk]
      · rw [dlookup, if_neg hk]
        exact ih hmem

/-- In a dict with unique keys, membership determines the lookup value. -/
lemma dlookup_eq_of_mem_nodup (c : ElementDict) (k w : String)
    (hc : (c.map Prod.fst).Nodup) (h : (k, w) ∈ c) :
    dlookup k c = some w := by
  induction c with
  | nil => simp at h
  | cons kv rest ih =>
    rw [List.map_cons, List.nodup_cons] at hc
    rcases List.mem_cons.mp h with heq | hmem
    · rw [← heq, dlookup, if_pos rfl]
    · have hk : kv.1 ≠ k := by
        intro hkk
        exact hc.1 (by rw [hkk]; exact List.mem_map_of_mem Prod.fst hmem)
      rw [dlookup, if_neg hk]
      exact ih hc.2 hmem

/-- Each pair of `dictUpdate d c` either comes from `d` with its value
rewritten through `c`, or is a new pair taken from `c`. -/
lemma dictUpdate_mem_source (d c : ElementDict) (kv : String × String)
    (h : kv ∈ dictUpdate d c) :
    (∃ w0, (kv.1, w0) ∈ d ∧ kv.2 = (dlookup kv.1 c).getD w0) ∨ kv ∈ c := by
  rw [dictUpdate, List.mem_append] at h
  rcases h with h | h
  · left
    rw [List.mem_map] at h
    obtain ⟨⟨a, b⟩, hmem, heq⟩ := h
    simp only at heq
    rw [← heq]
    exact ⟨b, hmem, rfl⟩
  · right
    exact (List.mem_filter.mp h).1

/-- When the updating dict `c` has unique keys, every pair of
`dictUpdate d c` whose key is bound in `c` carries `c`'s value. -/
lemma dictUpdate_val_of_nodup (d c : ElementDict) (kv : String × String)
    (hc : (c.map Prod.fst).Nodup) (h : kv ∈ dictUpdate d c) :
    dlookup kv.1 c = none ∨ dlookup kv.1 c = some kv.2 := by
  rcases dictUpdate_mem_source d c kv h with ⟨w0, _, hval⟩ | hmem
  · cases hcc : dlookup kv.1 c with
    | none => exact Or.inl rfl
    | some u =>
      right
      rw [hcc, Option.getD_some] at hval
      rw [hval]
  · exact Or.inr (dlookup_eq_of_mem_nodup c kv.1 kv.2 hc (by rwa [Prod.mk.eta]))

/-- Every pair of `dictUpdate B [(k0, v0)]` whose key is `k0` has value
`v0`. -/
lemma dictUpdate_singleton_val (B : ElementDict) (k0 v0 : String)
    (kv : String × String) (h : kv ∈ dictUpdate B [(k0, v0)])
    (hk : kv.1 = k0) : kv.2 = v0 := by
  rcases dictUpdate_mem_source B [(k0, v0)] kv h with ⟨w0, _, hval⟩ | hmem
  · rw [hk] at hval
    have hl : dlookup k0 [(k0, v0)] = some v0 := by
      rw [dlookup, if_pos rfl]
    rw [hl] at hval
    exact hval
  · rw [List.mem_singleton] at hmem
    rw [hmem]

/-- An update that rewrites no value and adds no key is the identity. -/
lemma dictUpdate_absorb (A c : ElementDict)
    (hkeys : ∀ kv ∈ c, (dlookup kv.1 A).isSome = true)
    (hvals : ∀ kv ∈ A, (dlookup kv.1 c).getD kv.2 = kv.2) :
    dictUpdate A c = A := by
  rw [dictUpdate]
  have hfilter : c.filter (fun kv => (dlookup kv.1 A).isNone) = [] := by
    rw [List.filter_eq_nil_iff]
    intro kv hkv
    have hs := hkeys kv hkv
    intro hnone
    rw [Option.isNone_iff_eq_none] at hnone
    rw [hnone] at hs
    simp at hs
  rw [hfilter, List.append_nil]
  have hmap : ∀ kv ∈ A,
      (fun kv : String × String => (kv.1, (dlookup kv.1 c).getD kv.2)) kv =
        id kv := by
    intro kv hkv
    simp only [id]
    rw [hvals kv hkv]
  rw [List.map_congr_left hmap, List.map_id]

/-- Applying content (and an optional position) never touches the `"id"`
binding, because content fields never bind `"id"`. -/
lemma applyContent_id_lookup (e content : ElementDict) (pos : Option String)
    (hid : dlookup "id" content = none) :
    dlookup "id" (applyContent e content pos) = dlookup "id" e := by
  cases pos with
  | none =>
    rw [applyContent, dlookup_dictUpdate, hid]
  | some p =>
    rw [applyContent, dlookup_dictUpdate]
    have h1 : dlookup "id" [("position", p)] = none := by
      rw [dlookup, if_neg (by simp)]
      rfl
    rw [h1]
    rw [dlookup_dictUpdate, hid]

/-- The element created on the not-found path carries the requested id. -/
lemma newElement_id_lookup (element_id : String) (content : ElementDict)
    (pos : Option String) (hid : dlookup "id" content = none) :
    dlookup "id" (newElement element_id content pos) = some element_id := by
  rw [newElement, applyContent_id_lookup _ _ _ hid, dlookup, if_pos rfl]

/-- Applying the same content (and the same optional position) twice gives
the same element dictionary as applying it once. -/
lemma applyContent_idem (e content : ElementDict) (pos : Option String)
    (hkeys : (content.map Prod.fst).Nodup)
    (hpos : dlookup "position" content = none) :
    applyContent (applyContent e content pos) content pos =
      applyContent e content pos := by
  cases pos with
  | none =>
    rw [applyContent, applyContent]
    apply dictUpdate_absorb
    · intro kv hkv
      rw [dlookup_dictUpdate]
      have hs := dlookup_isSome_of_mem content kv hkv
      cases hc2 : dlookup kv.1 content with
      | none => rw [hc2] at hs; simp at hs
      | some w => rfl
    · intro kv hkv
      rcases dictUpdate_val_of_nodup e content kv hkeys hkv with hnone | hsome
      · rw [hnone]; rfl
      · rw [hsome]; rfl
  | some p =>
    rw [applyContent, applyContent]
    have hstep1 :
        dictUpdate (dictUpdate (dictUpdate e content) [("position", p)])
          content =
        dictUpdate (dictUpdate e content) [("position", p)] := by
      apply dictUpdate_absorb
      · intro kv hkv
        rw [dlookup_dictUpdate]
        cases hp1 : dlookup kv.1 [("position", p)] with
        | some w => rfl
        | none =>
          rw [dlookup_dictUpdate]
          have hs := dlookup_isSome_of_mem content kv hkv
          cases hc2 : dlookup kv.1 content with
          | none => rw [hc2] at hs; simp at hs
          | some w => rfl
      · intro kv hkv
        by_cases hkp : kv.1 = "position"
        · rw [hkp, hpos]; rfl
        · have hp1 : dlookup kv.1 [("position", p)] = none := by
            rw [dlookup, if_neg (fun hh => hkp hh.symm)]
            rfl
          rcases dictUpdate_mem_source (dictUpdate e content)
              [("position", p)] kv hkv with ⟨w0, hmem, hval⟩ | hmem
          · rw [hp1, Option.getD_none] at hval
            rcases dictUpdate_val_of_nodup e content (kv.1, w0) hkeys hmem
              with hnone | hsome
            · rw [hnone]; rfl
            · rw [hval, hsome]; rfl
          · rw [List.mem_singleton] at hmem
            exact absurd (by rw [hmem]) hkp
    have hstep2 :
        dictUpdate (dictUpdate (dictUpdate e content) [("position", p)])
          [("position", p)] =
        dictUpdate (dictUpdate e content) [("position", p)] := by
      apply dictUpdate_absorb
      · intro kv hkv
        rw [List.mem_singleton] at hkv
        rw [hkv]
        simp only
        rw [dlookup_dictUpdate]
        rw [dlookup, if_pos rfl]
        rfl
      · intro kv hkv
        by_cases hkp : kv.1 = "position"
        · have hv := dictUpdate_singleton_val (dictUpdate e content)
            "position" p kv hkv hkp
          rw [hkp, hv, dlookup, if_pos rfl]
          rfl
        · rw [dlookup, if_neg (fun hh => hkp hh.symm)]
          rfl
    rw [hstep1, hstep2]

/-- Counting elements with a given id, cons case. -/
lemma countId_cons (element_id : String) (e : ElementDict)
    (rest : List ElementDict) :
    countId element_id (e :: rest) =
      (if dlookup "id" e = some element_id then 1 else 0) +
        countId element_id rest := by
  by_cases h : dlookup "id" e = some element_id
  · rw [if_pos h]
    simp [countId, List.filter_cons, h]
    omega
  · rw [if_neg h]
    simp [countId, List.filter_cons, h]

/-- C1: reconciliation is idempotent by element id.  For every element
collection with at most one entry carrying `element_id`, injecting the same
id and content twice gives the same collection as injecting once, with
exactly one element carrying that id (never two); and when no element
carries the id, a single inject appends exactly one new element built from
the id plus the content fields.  The hypotheses on `content` state that it
is a dict of kind-specific content fields: unique keys, and no binding for
the reserved `"id"`/`"position"` keys. -/
theorem inject_idempotent_by_id (element_id : String) (content : ElementDict)
    (pos : Option String) (arr : List ElementDict)
    (harr : countId element_id arr ≤ 1)
    (hkeys : (content.map Prod.fst).Nodup)
    (hid : dlookup "id" content = none)
    (hpos : dlookup "position" content = none) :
    update_element element_id content pos
        (update_element element_id content pos arr) =
      update_element element_id content pos arr ∧
    countId element_id (update_element element_id content pos arr) = 1 ∧
    (countId element_id arr = 0 →
      update_element element_id content pos arr =
        arr ++ [newElement element_id content pos]) := by
  induction arr with
  | nil =>
    refine ⟨?_, ?_, fun _ => rfl⟩
    · rw [update_element, update_element,
        if_pos (newElement_id_lookup element_id content pos hid), newElement,
        applyContent_idem _ _ _ hkeys hpos]
    · rw [update_element, countId_cons,
        if_pos (newElement_id_lookup element_id content pos hid)]
      rfl
  | cons e rest ih =>
    by_cases h : dlookup "id" e = some element_id
    · have hrest : countId element_id rest = 0 := by
        rw [countId_cons, if_pos h] at harr
        omega
      refine ⟨?_, ?_, ?_⟩
      · rw [update_element, if_pos h, update_element,
          if_pos (by rw [applyContent_id_lookup _ _ _ hid]; exact h),
          applyContent_idem _ _ _ hkeys hpos]
      · rw [update_element, if_pos h, countId_cons,
          if_pos (by rw [applyContent_id_lookup _ _ _ hid]; exact h), hrest]
      · intro h0
        rw [countId_cons, if_pos h] at h0
        omega
    · have harr2 : countId element_id rest ≤ 1 := by
        rw [countId_cons, if_neg h] at harr
        omega
      obtain ⟨ih1, ih2, ih3⟩ := ih harr2
      refine ⟨?_, ?_, ?_⟩
      · rw [update_element, if_neg h, update_element, if_neg h, ih1]
      · rw [update_element, if_neg h, countId_cons, if_neg h, ih2]
      · intro h0
        rw [countId_cons, if_neg h] at h0
        rw [update_element, if_neg h, ih3 (by omega), List.cons_append]

theorem inject_idempotent_by_id_witness :
    update_element "el-a" [("x", "2"), ("y", "3")] (some "4/14")
        (update_element "el-a" [("x", "2"), ("y", "3")] (some "4/14")
          [[("id", "el-b"), ("x", "9")]]) =
      update_element "el-a" [("x", "2"), ("y", "3")] (some "4/14")
        [[("id", "el-b"), ("x", "9")]] ∧
    countId "el-a" (update_element "el-a" [("x", "2"), ("y", "3")]
      (some "4/14") [[("id", "el-b"), ("x", "9")]]) = 1 ∧
    (countId "el-a" [[("id", "el-b"), ("x", "9")]] = 0 →
      update_element "el-a" [("x", "2"), ("y", "3")] (some "4/14")
          [[("id", "el-b"), ("x", "9")]] =
        [[("id", "el-b"), ("x", "9")]] ++
          [newElement "el-a" [("x", "2"), ("y", "3")] (some "4/14")]) :=
  inject_idempotent_by_id "el-a" [("x", "2"), ("y", "3")] (some "4/14")
    [[("id", "el-b"), ("x", "9")]] (by decide) (by decide) (by decide)
    (by decide)

/-- C9: reconciliation merge is frame-preserving.  Injecting into a
collection whose matched element is `e` (the first — here only — element
carrying the id) rewrites exactly that element, leaving every element with a
different id unchanged; on the matched element, every field not bound in the
supplied content keeps its previous value, and the position field is
overwritten exactly when a position argument is provided.  The hypothesis on
`content` states that kind-specific content fields never bind the reserved
`"position"` key. -/
theorem inject_frame_preserving (element_id : String) (content : ElementDict)
    (pos : Option String) (l1 l2 : List ElementDict) (e : ElementDict)
    (hl1 : ∀ e2 ∈ l1, ¬ dlookup "id" e2 = some element_id)
    (he : dlookup "id" e = some element_id)
    (hpos : dlookup "position" content = none) :
    update_element element_id content pos (l1 ++ e :: l2) =
      l1 ++ applyContent e content pos :: l2 ∧
    (∀ k, dlookup k content = none → ¬ k = "position" →
      dlookup k (applyContent e content pos) = dlookup k e) ∧
    dlookup "position" (applyContent e content pos) =
      (match pos with
       | some p => some p
       | none => dlookup "position" e) := by
  refine ⟨?_, ?_, ?_⟩
  · induction l1 with
    | nil => rw [List.nil_append, update_element, if_pos he, List.nil_append]
    | cons e0 l1x ih =>
      rw [List.cons_append, update_element,
        if_neg (hl1 e0 (List.mem_cons_self e0 l1x)),
        ih (fun e2 he2 => hl1 e2 (List.mem_cons_of_mem e0 he2)),
        List.cons_append]
  · intro k hkc hknp
    cases pos with
    | none => rw [applyContent, dlookup_dictUpdate, hkc]
    | some p =>
      rw [applyContent, dlookup_dictUpdate]
      have h1 : dlookup k [("position", p)] = none := by
        rw [dlookup, if_neg (fun hh => hknp hh.symm)]
        rfl
      rw [h1, dlookup_dictUpdate, hkc]
  · cases pos with
    | none => rw [applyContent, dlookup_dictUpdate, hpos]
    | some p =>
      rw [applyContent, dlookup_dictUpdate, dlookup, if_pos rfl]

theorem inject_frame_preserving_witness :
    update_element "el-a" [("x", "2")] (some "4/14")
        ([[("id", "el-b")]] ++
          [("id", "el-a"), ("x", "1"), ("position", "old")] ::
            [[("id", "el-c")]]) =
      [[("id", "el-b")]] ++
        applyContent [("id", "el-a"), ("x", "1"), ("position", "old")]
          [("x", "2")] (some "4/14") :: [[("id", "el-c")]] ∧
    dlookup "y"
        (applyContent [("id", "el-a"), ("x", "1"), ("position", "old")]
          [("x", "2")] (some "4/14")) =
      dlookup "y" [("id", "el-a"), ("x", "1"), ("position", "old")] ∧
    dlookup "position"
        (applyContent [("id", "el-a"), ("x", "1"), ("position", "old")]
          [("x", "2")] (some "4/14")) = some "4/14" := by
  have h := inject_frame_preserving "el-a" [("x", "2")] (some "4/14")
    [[("id", "el-b")]] [[("id", "el-c")]]
    [("id", "el-a"), ("x", "1"), ("position", "old")]
    (by decide) (by decide) (by decide)
  exact ⟨h.1, h.2.1 "y" (by decide) (by decide), h.2.2⟩
